import Mathlib

/-!
Shallow embedding of `server.js` from the `alias-open-source` gateway: a small
Express wrapper exposing two Lambda-style handlers over HTTP with bearer-token
authentication and deep string coercion of JSON bodies.

JavaScript strings are modelled as lists of Unicode scalar values
(`List Nat`).  `String.prototype.length` counts UTF-16 code units, while
`Buffer.from(s)` produces the UTF-8 encoding, so both measures are modelled
explicitly.
-/

namespace AliasGateway

/-- UTF-16 code-unit count of one Unicode scalar value, as used by the
JavaScript `String.prototype.length` property: code points below `0x10000`
occupy one code unit, the rest occupy a surrogate pair. -/
def utf16UnitsOfChar (c : Nat) : Nat :=
  if c < 0x10000 then 1 else 2

/-- JavaScript string length (`s.length`): total UTF-16 code units. -/
def utf16Len (s : List Nat) : Nat :=
  (s.map utf16UnitsOfChar).sum

/-- UTF-8 encoding of one Unicode scalar value, as produced by
`Buffer.from(s)` in Node (utf8 is the default encoding). -/
def utf8EncodeChar (c : Nat) : List Nat :=
  if c < 0x80 then [c]
  else if c < 0x800 then [0xC0 + c / 64, 0x80 + c % 64]
  else if c < 0x10000 then
    [0xE0 + c / 4096, 0x80 + (c / 64) % 64, 0x80 + c % 64]
  else
    [0xF0 + c / 262144, 0x80 + (c / 4096) % 64, 0x80 + (c / 64) % 64,
      0x80 + c % 64]

/-- UTF-8 encoding of a JavaScript string, i.e. the byte content of
`Buffer.from(s)`. -/
def utf8Encode (s : List Nat) : List Nat :=
  s.flatMap utf8EncodeChar

/-- Membership in the character class `\s` of a JavaScript regular
expression: WhiteSpace plus LineTerminator per ECMA-262 (tab, LF, VT, FF,
CR, space, NBSP, the Unicode `Zs` category, LS, PS and ZWNBSP). -/
def isJsWhitespace (c : Nat) : Bool :=
  c == 0x9 || c == 0xA || c == 0xB || c == 0xC || c == 0xD || c == 0x20 ||
  c == 0xA0 || c == 0x1680 || (0x2000 ≤ c && c ≤ 0x200A) ||
  c == 0x2028 || c == 0x2029 || c == 0x202F || c == 0x205F ||
  c == 0x3000 || c == 0xFEFF

/-- Whether the anchored regular expression `/^Bearer\s+/i` matches the
string: six characters spelling `bearer` case-insensitively followed by at
least one `\s` character. -/
def matchesBearer : List Nat → Bool
  | b :: e :: a :: r :: e2 :: r2 :: c :: _ =>
    (b == 0x42 || b == 0x62) && (e == 0x45 || e == 0x65) &&
    (a == 0x41 || a == 0x61) && (r == 0x52 || r == 0x72) &&
    (e2 == 0x45 || e2 == 0x65) && (r2 == 0x52 || r2 == 0x72) &&
    isJsWhitespace c
  | _ => false

/-- The credential extraction `(req.headers.authorization || "").replace(/^Bearer\s+/i, "")`:
when the anchored pattern matches, remove the six prefix letters and the
maximal following run of `\s` characters (the regex quantifier `+` is
greedy); otherwise return the string unchanged. -/
def stripBearer (s : List Nat) : List Nat :=
  if matchesBearer s then (s.drop 6).dropWhile isJsWhitespace else s

/-- Outcome of the `requireAuth` middleware in `server.js`.  The first three
constructors are the responses it produces itself (500, 401, call `next()`);
`comparisonThrow` records that `crypto.timingSafeEqual` threw a `RangeError`
because its two buffers had different byte lengths, which propagates out of
the middleware to the framework. -/
inductive AuthOutcome where
  | missingSecret
  | unauthorized
  | authorized
  | comparisonThrow
deriving DecidableEq, Repr

/-- Node's `crypto.timingSafeEqual(a, b)` on byte buffers: throws when the
byte lengths differ, otherwise reports byte-for-byte equality (its
constant-time execution is a timing property with no observable counterpart
in this embedding). -/
def timingSafeEqual (a b : List Nat) : Except Unit Bool :=
  if a.length ≠ b.length then .error () else .ok (a == b)

/-- The decision made by `requireAuth` (`server.js` lines 73-87).
`secret` is `process.env.INTERNAL_AUTH_TOKEN` (`none` = unset), `authHeader`
is `req.headers.authorization` (`none` = header absent).  The guard
`if (!expected)` treats an unset or empty secret alike; `got && got.length
=== expected.length && crypto.timingSafeEqual(Buffer.from(got),
Buffer.from(expected))` short-circuits, so the buffer comparison only runs
when the stripped credential is non-empty and the UTF-16 lengths agree. -/
def authenticate (secret : Option (List Nat)) (authHeader : Option (List Nat)) :
    AuthOutcome :=
  match secret with
  | none => .missingSecret
  | some s =>
    if s.isEmpty then .missingSecret
    else
      let got := stripBearer (authHeader.getD [])
      if got.isEmpty then .unauthorized
      else if utf16Len got ≠ utf16Len s then .unauthorized
      else
        match timingSafeEqual (utf8Encode got) (utf8Encode s) with
        | .error _ => .comparisonThrow
        | .ok true => .authorized
        | .ok false => .unauthorized

/-!
JSON values produced by `express.json()` parsing: null, strings, numbers,
booleans, arrays and objects.  Numbers are modelled as integers (the values
exercised by the repository's payloads); `JSON.parse` never yields
`undefined`, so the model has no separate constructor for it — `server.js`
sends `undefined` to the same branch as `null`.  Object fields keep key
insertion order, as `Object.entries` iterates string keys in that order.
-/

mutual

inductive JSON where
  | jnull
  | jstr (s : String)
  | jnum (n : Int)
  | jbool (b : Bool)
  | jarr (items : JArr)
  | jobj (fields : JObj)

inductive JArr where
  | nil
  | cons (hd : JSON) (tl : JArr)

inductive JObj where
  | nil
  | cons (key : String) (val : JSON) (tl : JObj)

end

/-- JavaScript `String(b)` on a boolean. -/
def jsBoolToString (b : Bool) : String :=
  if b then "true" else "false"

/-- JavaScript `String(n)` on an integer-valued number: signed decimal. -/
def jsIntToString (n : Int) : String :=
  toString n

mutual

/-- The function `coerceToStringsDeep` of `server.js` (lines 54-67):
`null`/`undefined` become `""`, strings pass through, arrays map
recursively, objects rebuild every entry recursively, and any remaining
scalar goes through `String(value)`. -/
def coerceToStringsDeep : JSON → JSON
  | .jnull => .jstr ""
  | .jstr s => .jstr s
  | .jarr xs => .jarr (coerceArr xs)
  | .jobj fs => .jobj (coerceObj fs)
  | .jnum n => .jstr (jsIntToString n)
  | .jbool b => .jstr (jsBoolToString b)

/-- `value.map(coerceToStringsDeep)` over the elements of an array. -/
def coerceArr : JArr → JArr
  | .nil => .nil
  | .cons x xs => .cons (coerceToStringsDeep x) (coerceArr xs)

/-- The loop `for (const [k, v] of Object.entries(value)) out[k] = coerceToStringsDeep(v)`. -/
def coerceObj : JObj → JObj
  | .nil => .nil
  | .cons k v fs => .cons k (coerceToStringsDeep v) (coerceObj fs)

end

mutual

/-- Whether every leaf of the tree is a string: `jnull`, `jnum` and `jbool`
leaves fail, containers require it of all members. -/
def allLeavesString : JSON → Bool
  | .jnull => false
  | .jstr _ => true
  | .jnum _ => false
  | .jbool _ => false
  | .jarr xs => allLeavesStringArr xs
  | .jobj fs => allLeavesStringObj fs

/-- `allLeavesString` over array elements. -/
def allLeavesStringArr : JArr → Bool
  | .nil => true
  | .cons x xs => allLeavesString x && allLeavesStringArr xs

/-- `allLeavesString` over object field values. -/
def allLeavesStringObj : JObj → Bool
  | .nil => true
  | .cons _ v fs => allLeavesString v && allLeavesStringObj fs

end

mutual

/-- Container-shape erasure: every leaf is replaced by `jnull`, so two trees
have the same object key sets and order and the same array lengths and
order exactly when their erasures are equal. -/
def eraseLeaves : JSON → JSON
  | .jnull => .jnull
  | .jstr _ => .jnull
  | .jnum _ => .jnull
  | .jbool _ => .jnull
  | .jarr xs => .jarr (eraseLeavesArr xs)
  | .jobj fs => .jobj (eraseLeavesObj fs)

/-- `eraseLeaves` over array elements. -/
def eraseLeavesArr : JArr → JArr
  | .nil => .nil
  | .cons x xs => .cons (eraseLeaves x) (eraseLeavesArr xs)

/-- `eraseLeaves` over object fields, keeping the keys. -/
def eraseLeavesObj : JObj → JObj
  | .nil => .nil
  | .cons k v fs => .cons k (eraseLeaves v) (eraseLeavesObj fs)

end

/-- JSON string escaping as performed by `JSON.stringify`: quote, backslash
and control characters are escaped, everything else is copied verbatim. -/
def escapeJsonChar (c : Char) : String :=
  if c = '"' then "\\\""
  else if c = '\\' then "\\\\"
  else if c = Char.ofNat 8 then "\\b"
  else if c = Char.ofNat 9 then "\\t"
  else if c = Char.ofNat 10 then "\\n"
  else if c = Char.ofNat 12 then "\\f"
  else if c = Char.ofNat 13 then "\\r"
  else if c.toNat < 0x20 then
    "\\u00" ++ String.mk [(Nat.digitChar (c.toNat / 16)), (Nat.digitChar (c.toNat % 16))]
  else String.singleton c

/-- A JSON string literal: the escaped content between double quotes. -/
def quoteJsonString (s : String) : String :=
  "\"" ++ String.join (s.toList.map escapeJsonChar) ++ "\""

mutual

/-- `JSON.stringify` on the modelled values (no indentation argument):
compact output with `,` and `:` separators and no whitespace. -/
def stringify : JSON → String
  | .jnull => "null"
  | .jstr s => quoteJsonString s
  | .jnum n => jsIntToString n
  | .jbool b => jsBoolToString b
  | .jarr xs => "[" ++ stringifyArr xs ++ "]"
  | .jobj fs => "\x7b" ++ stringifyObj fs ++ "\x7d"

/-- Comma-separated serialization of array elements. -/
def stringifyArr : JArr → String
  | .nil => ""
  | .cons x .nil => stringify x
  | .cons x (.cons y ys) => stringify x ++ "," ++ stringifyArr (.cons y ys)

/-- Comma-separated serialization of object fields. -/
def stringifyObj : JObj → String
  | .nil => ""
  | .cons k v .nil => quoteJsonString k ++ ":" ++ stringify v
  | .cons k v (.cons k2 v2 fs) =>
    quoteJsonString k ++ ":" ++ stringify v ++ "," ++
      stringifyObj (.cons k2 v2 fs)

end

/-!
Dynamic JavaScript values, as needed for the module-export resolution at
startup (`mainModule?.handler || mainModule?.default || mainModule`) and for
the tolerant reading of handler results (`out.statusCode || 200`,
`out.body || ""`).  Functions (`vfunc`) carry a tag distinguishing them and,
like plain objects, may carry `handler` and `default` properties, since a
JavaScript function is an object.
-/

/-- A JavaScript runtime value. -/
inductive JSVal where
  | vundefined
  | vnull
  | vbool (b : Bool)
  | vnum (n : Int)
  | vstr (s : String)
  | vfunc (tag : Nat) (handlerProp : JSVal) (defaultProp : JSVal)
  | vobj (handlerProp : JSVal) (defaultProp : JSVal)
deriving DecidableEq, Repr

namespace JSVal

/-- JavaScript truthiness: `undefined`, `null`, `false`, `0`, and `""` are
falsy; every function and object is truthy. -/
def truthy : JSVal → Bool
  | .vundefined => false
  | .vnull => false
  | .vbool b => b
  | .vnum n => n != 0
  | .vstr s => s != ""
  | .vfunc _ _ _ => true
  | .vobj _ _ => true

/-- The `||` operator: the left operand when truthy, else the right. -/
def jsOr (a b : JSVal) : JSVal :=
  if a.truthy then a else b

/-- Optional-chained property read `m?.handler`: `undefined` on
`null`/`undefined` receivers, the property on functions and objects, and
`undefined` on the remaining primitives. -/
def getHandlerProp : JSVal → JSVal
  | .vfunc _ h _ => h
  | .vobj h _ => h
  | _ => .vundefined

/-- Optional-chained property read `m?.default`. -/
def getDefaultProp : JSVal → JSVal
  | .vfunc _ _ d => d
  | .vobj _ d => d
  | _ => .vundefined

/-- `typeof v === "function"`. -/
def isCallable : JSVal → Bool
  | .vfunc _ _ _ => true
  | _ => false

end JSVal

/-- The resolution expression of `server.js` (lines 26-28):
`module?.handler || module?.default || module`, selecting by truthiness. -/
def resolveHandler (m : JSVal) : JSVal :=
  JSVal.jsOr (JSVal.jsOr m.getHandlerProp m.getDefaultProp) m

/-- Follows the spec's words for claim C3, for comparison with
`resolveHandler`: try, in order, the bare module reference itself as a
callable, else its `.handler` member, else its `.default` member; the first
callable found is the handler, `none` when none of the three is callable. -/
def resolveHandlerSpec (m : JSVal) : Option JSVal :=
  if m.isCallable then some m
  else if m.getHandlerProp.isCallable then some m.getHandlerProp
  else if m.getDefaultProp.isCallable then some m.getDefaultProp
  else none

/-- The fail-fast startup checks of `server.js` (lines 30-42): resolve both
modules, then throw (here `Except.error ()`, the thrown `Error`'s message
text is elided) if either resolved handler is not a function.  The server
only begins serving requests on the `.ok` result. -/
def serverStartup (mainModule identifyModule : JSVal) :
    Except Unit (JSVal × JSVal) :=
  let mainHandler := resolveHandler mainModule
  let identifyDuplicatesHandler := resolveHandler identifyModule
  if !mainHandler.isCallable then .error ()
  else if !identifyDuplicatesHandler.isCallable then .error ()
  else .ok (mainHandler, identifyDuplicatesHandler)

/-!
The two authenticated routes.  A request carries the configured secret, the
`Authorization` header, the parsed JSON body and the inbound header mapping;
the external handler is a function from the event to either a thrown value's
`message` (`Except.error`) or a result object.  An `async` handler's
resolution/rejection is modelled by the same `Except`.
-/

/-- The event passed to a handler: `{ body: JSON.stringify(cleanedBody),
headers: req.headers }`. -/
structure Event where
  body : String
  headers : List (String × String)
deriving DecidableEq, Repr

/-- The result object returned by a handler; either field may be any
JavaScript value (`undefined` models an absent field). -/
structure HandlerResult where
  statusCode : JSVal
  body : JSVal
deriving DecidableEq, Repr

/-- What a route does with an inbound request: either a single complete
response (status and body as JavaScript values), or a synchronous throw out
of the middleware, which Express's default error handler turns into a 500
outside the code of `server.js`. -/
inductive RouteResult where
  | resp (status : JSVal) (body : JSVal)
  | middlewareThrow
deriving DecidableEq, Repr

/-- `JSON.stringify` of the object `res.json({ error: m })` sends. -/
def errorBody (m : String) : String :=
  stringify (.jobj (.cons "error" (.jstr m) .nil))

/-- The expression `err?.message || "Internal error"`: a thrown value with a
truthy (non-empty) string `message` contributes that message, anything else
falls back to the generic text. -/
def jsErrMessageOr : Option String → String
  | some m => if m = "" then "Internal error" else m
  | none => "Internal error"

/-- Steps shared by both routes after the handler settles: a rejection is
answered with `res.status(500).json({ error: err?.message || "Internal error" })`,
a result with `res.status(out.statusCode || 200).send(out.body || "")`. -/
def handlerRespond (r : Except (Option String) HandlerResult) : RouteResult :=
  match r with
  | .error e => .resp (.vnum 500) (.vstr (errorBody (jsErrMessageOr e)))
  | .ok out =>
    .resp (JSVal.jsOr out.statusCode (.vnum 200))
      (JSVal.jsOr out.body (.vstr ""))

/-- The route `app.post("/v1/check", requireAuth, ...)` (`server.js` lines
98-108).  `requireAuth` answers 500 when the secret is unset/empty, 401 when
the credential check fails, and lets the request through otherwise; the
route body then coerces the parsed JSON, serializes it into the event, and
maps the awaited handler outcome to the response. -/
def postV1Check (secret authHeader : Option (List Nat)) (body : JSON)
    (headers : List (String × String))
    (handler : Event → Except (Option String) HandlerResult) : RouteResult :=
  match authenticate secret authHeader with
  | .missingSecret => .resp (.vnum 500) (.vstr (errorBody "Missing INTERNAL_AUTH_TOKEN"))
  | .unauthorized => .resp (.vnum 401) (.vstr (errorBody "Unauthorized"))
  | .comparisonThrow => .middlewareThrow
  | .authorized =>
    let cleanedBody := coerceToStringsDeep body
    let event : Event := ⟨stringify cleanedBody, headers⟩
    handlerRespond (handler event)

/-- The route `app.post("/v1/identify-duplicates", requireAuth, ...)`
(`server.js` lines 111-121), textually identical to `/v1/check` except for
the handler it invokes. -/
def postV1IdentifyDuplicates (secret authHeader : Option (List Nat))
    (body : JSON) (headers : List (String × String))
    (handler : Event → Except (Option String) HandlerResult) : RouteResult :=
  match authenticate secret authHeader with
  | .missingSecret => .resp (.vnum 500) (.vstr (errorBody "Missing INTERNAL_AUTH_TOKEN"))
  | .unauthorized => .resp (.vnum 401) (.vstr (errorBody "Unauthorized"))
  | .comparisonThrow => .middlewareThrow
  | .authorized =>
    let cleanedBody := coerceToStringsDeep body
    let event : Event := ⟨stringify cleanedBody, headers⟩
    handlerRespond (handler event)

/-!
Helper lemmas.
-/

mutual

theorem allLeavesString_coerce : (v : JSON) →
    allLeavesString (coerceToStringsDeep v) = true
  | .jnull => rfl
  | .jstr _ => rfl
  | .jnum _ => rfl
  | .jbool _ => rfl
  | .jarr xs => allLeavesStringArr_coerce xs
  | .jobj fs => allLeavesStringObj_coerce fs

theorem allLeavesStringArr_coerce : (xs : JArr) →
    allLeavesStringArr (coerceArr xs) = true
  | .nil => rfl
  | .cons x xs => by
    simp [coerceArr, allLeavesStringArr, allLeavesString_coerce x,
      allLeavesStringArr_coerce xs]

theorem allLeavesStringObj_coerce : (fs : JObj) →
    allLeavesStringObj (coerceObj fs) = true
  | .nil => rfl
  | .cons _ v fs => by
    simp [coerceObj, allLeavesStringObj, allLeavesString_coerce v,
      allLeavesStringObj_coerce fs]

end

mutual

theorem coerce_fixed_of_allString : (v : JSON) → allLeavesString v = true →
    coerceToStringsDeep v = v
  | .jstr _, _ => rfl
  | .jnull, h => by simp [allLeavesString] at h
  | .jnum _, h => by simp [allLeavesString] at h
  | .jbool _, h => by simp [allLeavesString] at h
  | .jarr xs, h => by
    have hx : allLeavesStringArr xs = true := by simpa [allLeavesString] using h
    simp [coerceToStringsDeep, coerceArr_fixed_of_allString xs hx]
  | .jobj fs, h => by
    have hf : allLeavesStringObj fs = true := by simpa [allLeavesString] using h
    simp [coerceToStringsDeep, coerceObj_fixed_of_allString fs hf]

theorem coerceArr_fixed_of_allString : (xs : JArr) →
    allLeavesStringArr xs = true → coerceArr xs = xs
  | .nil, _ => rfl
  | .cons x xs, h => by
    have h1 : allLeavesString x = true := by
      simpa [allLeavesStringArr] using (Bool.and_elim_left (by simpa [allLeavesStringArr] using h))
    have h2 : allLeavesStringArr xs = true := by
      simpa [allLeavesStringArr] using (Bool.and_elim_right (by simpa [allLeavesStringArr] using h))
    simp [coerceArr, coerce_fixed_of_allString x h1,
      coerceArr_fixed_of_allString xs h2]

theorem coerceObj_fixed_of_allString : (fs : JObj) →
    allLeavesStringObj fs = true → coerceObj fs = fs
  | .nil, _ => rfl
  | .cons k v fs, h => by
    have h1 : allLeavesString v = true := by
      simpa [allLeavesStringObj] using (Bool.and_elim_left (by simpa [allLeavesStringObj] using h))
    have h2 : allLeavesStringObj fs = true := by
      simpa [allLeavesStringObj] using (Bool.and_elim_right (by simpa [allLeavesStringObj] using h))
    simp [coerceObj, coerce_fixed_of_allString v h1,
      coerceObj_fixed_of_allString fs h2]

end

mutual

theorem eraseLeaves_coerce : (v : JSON) →
    eraseLeaves (coerceToStringsDeep v) = eraseLeaves v
  | .jnull => rfl
  | .jstr _ => rfl
  | .jnum _ => rfl
  | .jbool _ => rfl
  | .jarr xs => by
    simp [coerceToStringsDeep, eraseLeaves, eraseLeavesArr_coerce xs]
  | .jobj fs => by
    simp [coerceToStringsDeep, eraseLeaves, eraseLeavesObj_coerce fs]

theorem eraseLeavesArr_coerce : (xs : JArr) →
    eraseLeavesArr (coerceArr xs) = eraseLeavesArr xs
  | .nil => rfl
  | .cons x xs => by
    simp [coerceArr, eraseLeavesArr, eraseLeaves_coerce x,
      eraseLeavesArr_coerce xs]

theorem eraseLeavesObj_coerce : (fs : JObj) →
    eraseLeavesObj (coerceObj fs) = eraseLeavesObj fs
  | .nil => rfl
  | .cons k v fs => by
    simp [coerceObj, eraseLeavesObj, eraseLeaves_coerce v,
      eraseLeavesObj_coerce fs]

end

theorem authenticate_none (t : Option (List Nat)) :
    authenticate none t = .missingSecret := rfl

theorem authenticate_emptySecret (t : Option (List Nat)) :
    authenticate (some []) t = .missingSecret := rfl

theorem authenticate_authorized_of_strip (s : List Nat) (h : Option (List Nat))
    (hs : s ≠ []) (hg : stripBearer (h.getD []) = s) :
    authenticate (some s) h = .authorized := by
  unfold authenticate
  rw [hg]
  simp [List.isEmpty_iff, hs, timingSafeEqual]

theorem authenticate_unauthorized_of_len (s : List Nat) (h : Option (List Nat))
    (hs : s ≠ []) (hl : utf16Len (stripBearer (h.getD [])) ≠ utf16Len s) :
    authenticate (some s) h = .unauthorized := by
  unfold authenticate
  by_cases hg : (stripBearer (h.getD [])).isEmpty
  · simp [List.isEmpty_iff, hs, hg]
  · simp [List.isEmpty_iff, hs, hg, hl]

theorem postV1Check_of_authorized (secret authHeader : Option (List Nat))
    (body : JSON) (headers : List (String × String))
    (f : Event → Except (Option String) HandlerResult)
    (ha : authenticate secret authHeader = .authorized) :
    postV1Check secret authHeader body headers f =
      handlerRespond (f ⟨stringify (coerceToStringsDeep body), headers⟩) := by
  unfold postV1Check
  rw [ha]

theorem postV1IdentifyDuplicates_of_authorized
    (secret authHeader : Option (List Nat)) (body : JSON)
    (headers : List (String × String))
    (f : Event → Except (Option String) HandlerResult)
    (ha : authenticate secret authHeader = .authorized) :
    postV1IdentifyDuplicates secret authHeader body headers f =
      handlerRespond (f ⟨stringify (coerceToStringsDeep body), headers⟩) := by
  unfold postV1IdentifyDuplicates
  rw [ha]

/-!
Claim theorems.
-/

/-- C1: `requireAuth` implements the spec's three-way decision on the cases
where the comparison primitive is defined: an unset or empty secret yields
`missingSecret` (500) for every credential; a non-empty secret equal to the
stripped credential yields `authorized`; differing UTF-16 lengths yield
`unauthorized`.  The final conjunct shows the case the claim gets wrong:
with secret `"a"` and header `"é"` the code does not return `unauthorized`
as claimed — the buffer comparison throws (the UTF-16 lengths agree but the
UTF-8 byte lengths differ). -/
theorem authenticate_threeWayDecision :
    (∀ t, authenticate none t = .missingSecret) ∧
    (∀ t, authenticate (some []) t = .missingSecret) ∧
    (∀ (s : List Nat) (h : Option (List Nat)), s ≠ [] →
      stripBearer (h.getD []) = s → authenticate (some s) h = .authorized) ∧
    (∀ (s : List Nat) (h : Option (List Nat)), s ≠ [] →
      utf16Len (stripBearer (h.getD [])) ≠ utf16Len s →
      authenticate (some s) h = .unauthorized) ∧
    authenticate (some [0x61]) (some [0xE9]) = .comparisonThrow :=
  ⟨authenticate_none, authenticate_emptySecret,
    authenticate_authorized_of_strip, authenticate_unauthorized_of_len, rfl⟩

/-- Witness for C1: the secret `"s"` with header `"Bearer s"` is authorized,
and the secret `"st"` with header `"s"` is rejected on length. -/
theorem authenticate_threeWayDecision_witness :
    authenticate (some [0x73]) (some [0x42, 0x65, 0x61, 0x72, 0x65, 0x72, 0x20, 0x73]) =
      .authorized ∧
    authenticate (some [0x73, 0x74]) (some [0x73]) = .unauthorized :=
  ⟨authenticate_threeWayDecision.2.2.1 [0x73]
      (some [0x42, 0x65, 0x61, 0x72, 0x65, 0x72, 0x20, 0x73]) (by decide) (by decide),
    authenticate_threeWayDecision.2.2.2.1 [0x73, 0x74] (some [0x73]) (by decide)
      (by decide)⟩

/-- C2: the guard `got.length === expected.length` compares UTF-16 code-unit
counts, not byte lengths.  With credential `"é"` and secret `"a"` the
code-unit lengths agree (1 = 1) but `Buffer.from` produces 2 bytes versus 1,
so `crypto.timingSafeEqual` is invoked on buffers of different byte lengths
and throws, contradicting the claim that the guard establishes the
equal-byte-length precondition for all inputs and that `authenticate` is a
total never-throwing decision. -/
theorem lengthGuard_does_not_bound_bytes :
    utf16Len [0xE9] = utf16Len [0x61] ∧
    (utf8Encode [0xE9]).length ≠ (utf8Encode [0x61]).length ∧
    timingSafeEqual (utf8Encode [0xE9]) (utf8Encode [0x61]) = .error () ∧
    authenticate (some [0x61]) (some [0xE9]) = .comparisonThrow :=
  ⟨rfl, by decide, rfl, rfl⟩

/-- C3 counterexample: the code resolves `m?.handler || m?.default || m`,
so for a module that is itself callable and carries a callable `.handler`
property the route uses the `.handler` member, while the claim's order
(bare reference first) would use the module itself; and for a module whose
`.handler` is truthy but not callable while `.default` is callable, the
code selects the non-callable `.handler` and startup throws, while the
claim's callable-first search would succeed with `.default`. -/
theorem resolutionOrder_counterexample :
    resolveHandler (.vfunc 0 (.vfunc 1 .vundefined .vundefined) .vundefined) =
      .vfunc 1 .vundefined .vundefined ∧
    resolveHandlerSpec (.vfunc 0 (.vfunc 1 .vundefined .vundefined) .vundefined) =
      some (.vfunc 0 (.vfunc 1 .vundefined .vundefined) .vundefined) ∧
    (JSVal.vfunc 1 .vundefined .vundefined) ≠ (.vfunc 0 (.vfunc 1 .vundefined .vundefined) .vundefined) ∧
    serverStartup (.vobj (.vstr "x") (.vfunc 2 .vundefined .vundefined))
      (.vfunc 3 .vundefined .vundefined) = .error () ∧
    resolveHandlerSpec (.vobj (.vstr "x") (.vfunc 2 .vundefined .vundefined)) =
      some (.vfunc 2 .vundefined .vundefined) :=
  ⟨rfl, rfl, by decide, rfl, rfl⟩

/-- C3 amended: handler resolution picks the module's `.handler` member if
truthy, else its `.default` member if truthy, else the bare module
reference; if either route's selected value is not callable the process
throws at startup before serving any request. -/
theorem resolutionOrder_amended :
    (∀ m : JSVal, m.getHandlerProp.truthy = true →
      resolveHandler m = m.getHandlerProp) ∧
    (∀ m : JSVal, m.getHandlerProp.truthy = false →
      m.getDefaultProp.truthy = true → resolveHandler m = m.getDefaultProp) ∧
    (∀ m : JSVal, m.getHandlerProp.truthy = false →
      m.getDefaultProp.truthy = false → resolveHandler m = m) ∧
    (∀ m i : JSVal, (resolveHandler m).isCallable = false →
      serverStartup m i = .error ()) ∧
    (∀ m i : JSVal, (resolveHandler i).isCallable = false →
      serverStartup m i = .error ()) := by
  refine ⟨?_, ?_, ?_, ?_, ?_⟩
  · intro m h1
    simp [resolveHandler, JSVal.jsOr, h1]
  · intro m h1 h2
    simp [resolveHandler, JSVal.jsOr, h1, h2]
  · intro m h1 h2
    simp [resolveHandler, JSVal.jsOr, h1, h2]
  · intro m i h
    simp [serverStartup, h]
  · intro m i h
    unfold serverStartup
    by_cases hm : (resolveHandler m).isCallable
    · simp [hm, h]
    · simp [hm]

/-- Witness for the amended C3: a module object with a callable `.handler`
resolves to it, and a module with no usable export makes startup throw. -/
theorem resolutionOrder_amended_witness :
    resolveHandler (.vobj (.vfunc 5 .vundefined .vundefined) .vundefined) =
      .vfunc 5 .vundefined .vundefined ∧
    serverStartup (.vobj .vnull .vnull) (.vfunc 3 .vundefined .vundefined) = .error () :=
  ⟨resolutionOrder_amended.1 (.vobj (.vfunc 5 .vundefined .vundefined) .vundefined) rfl,
    resolutionOrder_amended.2.2.2.1 (.vobj .vnull .vnull)
      (.vfunc 3 .vundefined .vundefined) rfl⟩

/-- C4: `coerceToStringsDeep` is total (a Lean function on the JSON model),
preserves the container shape exactly (leaf-erasures coincide, so object key
sets and insertion order and array lengths and order are unchanged), leaves
every output leaf a string, and maps the leaves as specified: `null` to
`""`, strings to themselves, numbers and booleans to their `String(value)`
representations. -/
theorem coerceToStringsDeep_shape_and_leaves :
    (∀ v, eraseLeaves (coerceToStringsDeep v) = eraseLeaves v) ∧
    (∀ v, allLeavesString (coerceToStringsDeep v) = true) ∧
    coerceToStringsDeep .jnull = .jstr "" ∧
    (∀ s, coerceToStringsDeep (.jstr s) = .jstr s) ∧
    (∀ n, coerceToStringsDeep (.jnum n) = .jstr (jsIntToString n)) ∧
    (∀ b, coerceToStringsDeep (.jbool b) = .jstr (jsBoolToString b)) :=
  ⟨eraseLeaves_coerce, allLeavesString_coerce, rfl, fun _ => rfl,
    fun _ => rfl, fun _ => rfl⟩

/-- C5: whenever authentication lets a `/v1/check` request through, the
event handed to the handler has body `JSON.stringify(coerceToStringsDeep(v))`
and the original inbound headers; and on the concrete body
`\x7b"a": 1, "b": null, "c": [true, "x"]\x7d` the coerced tree and its
serialization are exactly those of
`\x7b"a": "1", "b": "", "c": ["true", "x"]\x7d`. -/
theorem postV1Check_envelope :
    (∀ secret authHeader body headers f,
      authenticate secret authHeader = .authorized →
      postV1Check secret authHeader body headers f =
        handlerRespond (f ⟨stringify (coerceToStringsDeep body), headers⟩)) ∧
    coerceToStringsDeep
        (.jobj (.cons "a" (.jnum 1) (.cons "b" .jnull
          (.cons "c" (.jarr (.cons (.jbool true) (.cons (.jstr "x") .nil))) .nil)))) =
      .jobj (.cons "a" (.jstr "1") (.cons "b" (.jstr "")
        (.cons "c" (.jarr (.cons (.jstr "true") (.cons (.jstr "x") .nil))) .nil))) ∧
    stringify (coerceToStringsDeep
        (.jobj (.cons "a" (.jnum 1) (.cons "b" .jnull
          (.cons "c" (.jarr (.cons (.jbool true) (.cons (.jstr "x") .nil))) .nil))))) =
      stringify (.jobj (.cons "a" (.jstr "1") (.cons "b" (.jstr "")
        (.cons "c" (.jarr (.cons (.jstr "true") (.cons (.jstr "x") .nil))) .nil)))) :=
  ⟨postV1Check_of_authorized, rfl, rfl⟩

/-- Witness for C5: a concrete authorized request reaches the handler and
its result is returned. -/
theorem postV1Check_envelope_witness :
    postV1Check (some [0x73]) (some [0x42, 0x65, 0x61, 0x72, 0x65, 0x72, 0x20, 0x73])
      .jnull [] (fun _ => .ok ⟨.vnum 200, .vstr "ok"⟩) =
      .resp (.vnum 200) (.vstr "ok") := by
  rw [postV1Check_envelope.1 _ _ _ _ _ (by decide)]
  rfl

/-- C6: `coerceToStringsDeep` is idempotent, and it is the identity on every
tree whose leaves are already all strings. -/
theorem coerceToStringsDeep_idempotent :
    (∀ v, coerceToStringsDeep (coerceToStringsDeep v) = coerceToStringsDeep v) ∧
    (∀ v, allLeavesString v = true → coerceToStringsDeep v = v) :=
  ⟨fun v => coerce_fixed_of_allString _ (allLeavesString_coerce v),
    coerce_fixed_of_allString⟩

/-- Witness for C6: a concrete all-string tree is returned unchanged. -/
theorem coerceToStringsDeep_idempotent_witness :
    coerceToStringsDeep (.jarr (.cons (.jstr "a") (.cons (.jstr "") .nil))) =
      .jarr (.cons (.jstr "a") (.cons (.jstr "") .nil)) :=
  coerceToStringsDeep_idempotent.2 _ rfl

/-- C7: when `requireAuth` decides `unauthorized`, `/v1/check` answers 401
with the `Unauthorized` JSON body; whenever the decision is anything other
than `authorized` the response does not depend on the handler, so the
handler is never invoked.  The final conjunct shows the case the claim gets
wrong: with secret `"a"` and header `"é"` (an invalid credential) the
middleware throws out of the comparison instead of answering 401 — Express's
default error handler then produces a 500 — though the handler is still
never invoked. -/
theorem postV1Check_unauthorized_shortCircuit :
    (∀ secret authHeader body headers f,
      authenticate secret authHeader = .unauthorized →
      postV1Check secret authHeader body headers f =
        .resp (.vnum 401) (.vstr (errorBody "Unauthorized"))) ∧
    (∀ secret authHeader body headers f g,
      authenticate secret authHeader ≠ .authorized →
      postV1Check secret authHeader body headers f =
        postV1Check secret authHeader body headers g) ∧
    postV1Check (some [0x61]) (some [0xE9]) .jnull []
      (fun _ => .ok ⟨.vnum 200, .vstr "ok"⟩) = .middlewareThrow := by
  refine ⟨?_, ?_, rfl⟩
  · intro secret authHeader body headers f h
    unfold postV1Check
    rw [h]
  · intro secret authHeader body headers f g h
    unfold postV1Check
    cases ha : authenticate secret authHeader with
    | missingSecret => rfl
    | unauthorized => rfl
    | comparisonThrow => rfl
    | authorized => exact absurd ha h

/-- Witness for C7: a request with no `Authorization` header against a
configured secret is answered 401. -/
theorem postV1Check_unauthorized_shortCircuit_witness :
    postV1Check (some [0x61]) none .jnull []
      (fun _ => .ok ⟨.vnum 200, .vstr "ok"⟩) =
      .resp (.vnum 401) (.vstr (errorBody "Unauthorized")) :=
  postV1Check_unauthorized_shortCircuit.1 _ _ _ _ _ (by decide)

/-- C8: on both authenticated routes, a handler rejection with value `e` is
answered by exactly one response, HTTP 500 with JSON body
`\x7b "error": m \x7d` where `m` is `e`'s message when that is a truthy
string and `"Internal error"` otherwise. -/
theorem routes_handlerError_500 :
    (∀ secret authHeader body headers f e,
      authenticate secret authHeader = .authorized →
      f ⟨stringify (coerceToStringsDeep body), headers⟩ = .error e →
      postV1Check secret authHeader body headers f =
        .resp (.vnum 500) (.vstr (errorBody (jsErrMessageOr e)))) ∧
    (∀ secret authHeader body headers f e,
      authenticate secret authHeader = .authorized →
      f ⟨stringify (coerceToStringsDeep body), headers⟩ = .error e →
      postV1IdentifyDuplicates secret authHeader body headers f =
        .resp (.vnum 500) (.vstr (errorBody (jsErrMessageOr e)))) ∧
    jsErrMessageOr (some "boom") = "boom" ∧
    jsErrMessageOr none = "Internal error" ∧
    jsErrMessageOr (some "") = "Internal error" := by
  refine ⟨?_, ?_, rfl, rfl, rfl⟩
  · intro secret authHeader body headers f e ha hf
    rw [postV1Check_of_authorized secret authHeader body headers f ha, hf]
    rfl
  · intro secret authHeader body headers f e ha hf
    rw [postV1IdentifyDuplicates_of_authorized secret authHeader body headers f ha, hf]
    rfl

/-- Witness for C8: concrete rejecting handlers on both routes. -/
theorem routes_handlerError_500_witness :
    postV1Check (some [0x73]) (some [0x73]) .jnull []
      (fun _ => .error (some "boom")) =
      .resp (.vnum 500) (.vstr (errorBody (jsErrMessageOr (some "boom")))) ∧
    postV1IdentifyDuplicates (some [0x73]) (some [0x73]) .jnull []
      (fun _ => .error none) =
      .resp (.vnum 500) (.vstr (errorBody (jsErrMessageOr none))) :=
  ⟨routes_handlerError_500.1 _ _ _ _ _ (some "boom") (by decide) rfl,
    routes_handlerError_500.2.1 _ _ _ _ _ none (by decide) rfl⟩

/-- C9 counterexample: for the non-empty secret `"Bearer x"`, sending the
secret verbatim as the `Authorization` header is rejected, because the
anchored case-insensitive prefix regex strips `"Bearer "` from the header
and the remaining `"x"` fails the length check against the secret. -/
theorem bearer_secret_verbatim_rejected :
    authenticate (some [0x42, 0x65, 0x61, 0x72, 0x65, 0x72, 0x20, 0x78])
      (some [0x42, 0x65, 0x61, 0x72, 0x65, 0x72, 0x20, 0x78]) = .unauthorized ∧
    ([0x42, 0x65, 0x61, 0x72, 0x65, 0x72, 0x20, 0x78] : List Nat) ≠ [] ∧
    stripBearer [0x42, 0x65, 0x61, 0x72, 0x65, 0x72, 0x20, 0x78] = [0x78] := by
  refine ⟨rfl, by decide, rfl⟩

/-- C9 amended: for every non-empty configured secret that the anchored
case-insensitive `Bearer`-plus-whitespace prefix pattern does not match
(equivalently, that `stripBearer` leaves unchanged), a request whose
`Authorization` header is exactly the secret is authorized. -/
theorem bare_secret_header_authorized :
    ∀ s : List Nat, s ≠ [] → stripBearer s = s →
      authenticate (some s) (some s) = .authorized :=
  fun s hs hg => authenticate_authorized_of_strip s (some s) hs hg

/-- Witness for the amended C9: the secret `"x"` sent without any prefix. -/
theorem bare_secret_header_authorized_witness :
    authenticate (some [0x78]) (some [0x78]) = .authorized :=
  bare_secret_header_authorized [0x78] (by decide) (by decide)

/-- C10: the response mapping `res.status(out.statusCode || 200).send(out.body || "")`
treats every falsy field as absent: a falsy `statusCode` (not only a missing
one — also `0` or `null`) yields status 200 and a falsy `body` (also `""`,
`0`, `false`, `null`) yields the empty response body, shown in general and
at the enumerated concrete values. -/
theorem handlerRespond_falsy_defaults :
    (∀ out : HandlerResult, out.statusCode.truthy = false →
      handlerRespond (.ok out) =
        .resp (.vnum 200) (JSVal.jsOr out.body (.vstr ""))) ∧
    (∀ out : HandlerResult, out.body.truthy = false →
      handlerRespond (.ok out) =
        .resp (JSVal.jsOr out.statusCode (.vnum 200)) (.vstr "")) ∧
    handlerRespond (.ok ⟨.vnum 0, .vnull⟩) = .resp (.vnum 200) (.vstr "") ∧
    handlerRespond (.ok ⟨.vnull, .vnum 0⟩) = .resp (.vnum 200) (.vstr "") ∧
    handlerRespond (.ok ⟨.vnum 0, .vbool false⟩) = .resp (.vnum 200) (.vstr "") ∧
    handlerRespond (.ok ⟨.vundefined, .vstr ""⟩) = .resp (.vnum 200) (.vstr "") := by
  refine ⟨?_, ?_, rfl, rfl, rfl, rfl⟩
  · intro out h
    simp [handlerRespond, JSVal.jsOr, h]
  · intro out h
    simp [handlerRespond, JSVal.jsOr, h]

/-- Witness for C10: a result with `statusCode: 0` and a non-empty body. -/
theorem handlerRespond_falsy_defaults_witness :
    handlerRespond (.ok ⟨.vnum 0, .vstr "hello"⟩) =
      .resp (.vnum 200) (JSVal.jsOr (.vstr "hello") (.vstr "")) :=
  handlerRespond_falsy_defaults.1 ⟨.vnum 0, .vstr "hello"⟩ rfl

end AliasGateway
